import Mathlib

/-!
Shallow embedding of the SPOS scheduler core (os_scheduler.c) and the button
input reader (os_input.c), together with theorems checking the specification's
claims against it.

Machine integers are modelled as `Nat` with explicit `% 2^w` where overflow
matters (the critical-section nesting counter is a `uint8_t`, stack pointers
are 16 bit).  Hardware registers (`PINC`, `SREG`, `TIMSK2`) are modelled as
byte-valued fields / inputs.  The error-reporting collaborator `os_errorPStr`
is modelled by counting its invocations.
-/

namespace SPOS

/-- Process lifecycle states (`OS_PS_*` in the source / spec data model). -/
inductive ProcessState where
  | OS_PS_UNUSED
  | OS_PS_READY
  | OS_PS_RUNNING
  | OS_PS_BLOCKED
deriving DecidableEq, Repr

/-- One process-table slot: `state`, `priority`, `progID`, `sp`
(the saved stack cursor, a 16-bit value modelled as `Nat`). -/
structure Process where
  state : ProcessState
  priority : Nat
  progID : Nat
  sp : Nat
deriving DecidableEq, Repr

instance : Inhabited Process :=
  ⟨{ state := ProcessState.OS_PS_UNUSED, priority := 0, progID := 0, sp := 0 }⟩

/-- The scheduling-strategy selector tags (`OS_SS_*` in the source). -/
inductive SchedulingStrategy where
  | OS_SS_EVEN
  | OS_SS_RANDOM
  | OS_SS_ROUND_ROBIN
  | OS_SS_INACTIVE_AGING
  | OS_SS_RUN_TO_COMPLETION
deriving DecidableEq, Repr

/-! ## Input reading (os_input.c) -/

/-- `os_getInput` from os_input.c, as a function of the raw `PINC` register
byte:

  uint8_t a = ~(PINC) & 0b11000011;
  uint8_t b = a & 0b11000000;
  b = (b >> 4);
  a |= b;
  return a;

`~x` on a `uint8_t` is `x ^^^ 255`. -/
def os_getInput (PINC : Nat) : Nat :=
  let a := ((PINC % 256) ^^^ 255) &&& 0b11000011
  let b := a &&& 0b11000000
  let b := b >>> 4
  a ||| b

/-! ## Program registry (os_registerProgram / os_lookupProgramFunction)

The registry `os_programs` is the fixed array `Program *os_programs[MAX_NUMBER_OF_PROGRAMS]`,
modelled as a list of optional entry-point addresses (`none` is a NULL slot);
the capacity `MAX_NUMBER_OF_PROGRAMS` (a constant from defines.h, not among
the provided sources) is the length of the list. -/

/-- `os_lookupProgramFunction` from os_scheduler.c: return NULL for an
out-of-range id, otherwise the slot's entry pointer (possibly NULL). -/
def os_lookupProgramFunction (os_programs : List (Option Nat))
    (programID : Nat) : Option Nat :=
  if os_programs.length ≤ programID then none
  else os_programs.getD programID none

/-- The scan loop of `os_registerProgram`:

  while (os_programs[slot] && os_programs[slot] != program
         && slot < MAX_NUMBER_OF_PROGRAMS) slot++;

`fuel` is `MAX_NUMBER_OF_PROGRAMS - slot`, so the `fuel = 0` case is exactly
the iteration in which `slot = MAX_NUMBER_OF_PROGRAMS` and the bounds test
fails.  The C condition evaluates `os_programs[slot]` before testing
`slot < MAX_NUMBER_OF_PROGRAMS`, so every iteration, the final one included,
performs an array read at index `slot`; the second component records those
accessed indices. -/
def os_registerProgram_scan (os_programs : List (Option Nat)) (program : Nat) :
    Nat → Nat → Nat × List Nat
  | 0, slot => (slot, [slot])
  | fuel + 1, slot =>
    if os_programs.getD slot none ≠ none ∧
        os_programs.getD slot none ≠ some program then
      let r := os_registerProgram_scan os_programs program fuel (slot + 1)
      (r.1, slot :: r.2)
    else (slot, [slot])

/-- Result of `os_registerProgram`: the returned id (`none` models the
INVALID_PROGRAM sentinel), the registry afterwards, and the list of indices
at which the registry array was read or written. -/
structure RegisterResult where
  ret : Option Nat
  os_programs : List (Option Nat)
  accessed : List Nat
deriving DecidableEq, Repr

/-- `os_registerProgram` from os_scheduler.c: scan for the first slot that is
free or already holds `program`; if the scan ran past the end return
INVALID_PROGRAM, otherwise store `program` in the found slot and return its
index. -/
def os_registerProgram (os_programs : List (Option Nat)) (program : Nat) :
    RegisterResult :=
  let r := os_registerProgram_scan os_programs program os_programs.length 0
  if os_programs.length ≤ r.1 then
    { ret := none, os_programs := os_programs, accessed := r.2 }
  else
    { ret := some r.1, os_programs := os_programs.set r.1 (some program),
      accessed := r.2 ++ [r.1] }

/-! ## Critical-section guard (os_enterCriticalSection / os_leaveCriticalSection) -/

/-- The state touched by the critical-section guard:
`criticalSectionCount` is the `uint8_t` nesting counter, `SREG` and `TIMSK2`
are the hardware register bytes, and `errorCalls` counts invocations of the
error-reporting collaborator `os_errorPStr`. -/
structure CriticalState where
  criticalSectionCount : Nat
  SREG : Nat
  TIMSK2 : Nat
  errorCalls : Nat
deriving DecidableEq, Repr

/-- `os_enterCriticalSection` from os_scheduler.c:
save the global-interrupt-enable bit (SREG bit 7), clear it, increment the
`uint8_t` nesting counter, mask the scheduler interrupt source by clearing
OCIE2A (TIMSK2 bit 1), restore the saved interrupt-enable bit. -/
def os_enterCriticalSection (s : CriticalState) : CriticalState :=
  let GlobalInterruptEnableBit := s.SREG &&& 0b10000000
  let sreg1 := s.SREG &&& 0b01111111
  let c := (s.criticalSectionCount + 1) % 256
  let timsk := s.TIMSK2 &&& 0b11111101
  { criticalSectionCount := c, SREG := sreg1 ||| GlobalInterruptEnableBit,
    TIMSK2 := timsk, errorCalls := s.errorCalls }

/-- `os_leaveCriticalSection` from os_scheduler.c:
save and clear the global-interrupt-enable bit, decrement the `uint8_t`
nesting counter (wrapping mod 256), then

  if (criticalSectionCount < 0)      -- uint8_t promoted to int: never true
      os_errorPStr(...)
  else if (criticalSectionCount == 0)
      TIMSK2 |= 0b00000010;          -- unmask the scheduler interrupt

and finally restore the saved interrupt-enable bit.  The `< 0` comparison is
kept literally: on the unsigned counter value it is always false.  The
if/else-if chain is translated field-wise (each branch touches a disjoint
field: the first only calls the error collaborator, the second only writes
TIMSK2). -/
def os_leaveCriticalSection (s : CriticalState) : CriticalState :=
  let GlobalInterruptEnableBit := s.SREG &&& 0b10000000
  let sreg1 := s.SREG &&& 0b01111111
  let c := (s.criticalSectionCount + 255) % 256
  { criticalSectionCount := c,
    SREG := sreg1 ||| GlobalInterruptEnableBit,
    TIMSK2 :=
      if c < 0 then s.TIMSK2
      else if c = 0 then s.TIMSK2 ||| 0b00000010
      else s.TIMSK2,
    errorCalls := if c < 0 then s.errorCalls + 1 else s.errorCalls }

/-- `n` successive calls of `os_enterCriticalSection`. -/
def enterN : Nat → CriticalState → CriticalState
  | 0, s => s
  | n + 1, s => enterN n (os_enterCriticalSection s)

/-- `n` successive calls of `os_leaveCriticalSection`. -/
def leaveN : Nat → CriticalState → CriticalState
  | 0, s => s
  | n + 1, s => leaveN n (os_leaveCriticalSection s)

/-- The scheduler's triggering interrupt source is unmasked iff OCIE2A
(TIMSK2 bit 1) is set. -/
def schedulerUnmasked (s : CriticalState) : Bool :=
  s.TIMSK2.testBit 1

/-! ## Process launch (os_exec)

The process table `os_processes` is the fixed array
`Process os_processes[MAX_NUMBER_OF_PROCESSES]`, modelled as a list; the
capacity `MAX_NUMBER_OF_PROCESSES` (a constant from defines.h, not among the
provided sources) is the length of the list.  Stack memory is a byte store
`Nat → Nat`; `PROCESS_STACK_BOTTOM` (a macro from defines.h) is a parameter
giving each process's stack-bottom address. -/

/-- Pointwise update of the byte memory holding the process stacks. -/
def memUpd (mem : Nat → Nat) (a v : Nat) : Nat → Nat :=
  fun x => if x = a then v else mem x

/-- The zero-fill loop of `os_exec`:

  for (uint8_t i = 0 ; i < 33 ; i++){ *(sp.as_ptr) = 0x00; sp.as_int -= 1; }

`sp` is the 16-bit `StackPointer.as_int`, so the decrement wraps mod 2^16.
Returns the memory afterwards and the final cursor value. -/
def pushZeros : Nat → Nat → (Nat → Nat) → (Nat → Nat) × Nat
  | 0, sp, mem => (mem, sp)
  | n + 1, sp, mem => pushZeros n ((sp + 65535) % 65536) (memUpd mem sp 0)

/-- Result of `os_exec`: the returned process id (`none` models the
INVALID_PROCESS sentinel), the process table, the stack memory, and the
critical-section state. -/
structure ExecResult where
  ret : Option Nat
  os_processes : List Process
  mem : Nat → Nat
  crit : CriticalState

/-- The body executed by `os_exec` once the scan has reached the first slot
`pid` in state UNUSED: look up the program's entry point
(`os_lookupProgramFunction`), on NULL leave the critical section and fail
with INVALID_PROCESS; otherwise mark the slot READY and store priority and
programID, write the entry point's low byte at the stack bottom
(`PROCESS_STACK_BOTTOM(pid)`) and its high byte one below, push 33 zero
bytes (one for SREG, 32 for the register file), store the final stack
cursor in the slot, and leave the critical section. -/
def os_exec_found (os_processes : List Process)
    (os_programs : List (Option Nat)) (programID priority : Nat)
    (PROCESS_STACK_BOTTOM : Nat → Nat) (mem : Nat → Nat)
    (crit : CriticalState) (pid : Nat) : ExecResult :=
  match os_lookupProgramFunction os_programs programID with
  | none =>
      { ret := none, os_processes := os_processes, mem := mem,
        crit := os_leaveCriticalSection crit }
  | some funktionszeiger =>
      let p1 : Process :=
        { os_processes.getD pid default with
          state := ProcessState.OS_PS_READY,
          priority := priority, progID := programID }
      let sp0 := PROCESS_STACK_BOTTOM pid % 65536
      let lowbyte := funktionszeiger % 256
      let mem1 := memUpd mem sp0 lowbyte
      let sp1 := (sp0 + 65535) % 65536
      let highbyte := funktionszeiger / 256 % 256
      let mem2 := memUpd mem1 sp1 highbyte
      let sp2 := (sp1 + 65535) % 65536
      let z := pushZeros 33 sp2 mem2
      { ret := some pid,
        os_processes := os_processes.set pid { p1 with sp := z.2 },
        mem := z.1,
        crit := os_leaveCriticalSection crit }

/-- The scan loop of `os_exec`:

  for (ProcessID pid = 0 ; pid < MAX_NUMBER_OF_PROCESSES ; pid++)
      if (os_processes[pid].state == OS_PS_UNUSED) { ... }

`fuel` is `MAX_NUMBER_OF_PROCESSES - pid`; exhausted fuel is the loop exit
with no unused slot found: leave the critical section and return
INVALID_PROCESS. -/
def os_exec_loop (os_processes : List Process)
    (os_programs : List (Option Nat)) (programID priority : Nat)
    (PROCESS_STACK_BOTTOM : Nat → Nat) (mem : Nat → Nat)
    (crit : CriticalState) : Nat → Nat → ExecResult
  | 0, _pid =>
      { ret := none, os_processes := os_processes, mem := mem,
        crit := os_leaveCriticalSection crit }
  | fuel + 1, pid =>
      if (os_processes.getD pid default).state = ProcessState.OS_PS_UNUSED then
        os_exec_found os_processes os_programs programID priority
          PROCESS_STACK_BOTTOM mem crit pid
      else
        os_exec_loop os_processes os_programs programID priority
          PROCESS_STACK_BOTTOM mem crit fuel (pid + 1)

/-- `os_exec` from os_scheduler.c: enter a critical section, scan the
process table for the first UNUSED slot and launch the program there (see
`os_exec_found` and `os_exec_loop`); INVALID_PROCESS if the table is full
or the programID does not resolve. -/
def os_exec (os_processes : List Process) (os_programs : List (Option Nat))
    (programID priority : Nat) (PROCESS_STACK_BOTTOM : Nat → Nat)
    (mem : Nat → Nat) (crit : CriticalState) : ExecResult :=
  os_exec_loop os_processes os_programs programID priority
    PROCESS_STACK_BOTTOM mem (os_enterCriticalSection crit)
    os_processes.length 0

/-- A sequence of `os_exec` calls given as (programID, priority) pairs,
threading table, memory and critical-section state; the second component
counts the successful calls (those not returning INVALID_PROCESS). -/
def execSeq (os_programs : List (Option Nat))
    (PROCESS_STACK_BOTTOM : Nat → Nat) :
    List (Nat × Nat) → List Process → (Nat → Nat) → CriticalState →
      List Process × Nat
  | [], ps, _mem, _crit => (ps, 0)
  | c :: calls, ps, mem, crit =>
      let r := os_exec ps os_programs c.1 c.2 PROCESS_STACK_BOTTOM mem crit
      let r2 := execSeq os_programs PROCESS_STACK_BOTTOM calls
        r.os_processes r.mem r.crit
      (r2.1, r2.2 + if r.ret = none then 0 else 1)

/-- Number of UNUSED slots in the process table. -/
def unusedCount (ps : List Process) : Nat :=
  ps.countP (fun p => decide (p.state = ProcessState.OS_PS_UNUSED))

/-- Number of RUNNING slots in the process table. -/
def runningCount (ps : List Process) : Nat :=
  ps.countP (fun p => decide (p.state = ProcessState.OS_PS_RUNNING))

/-! ## Scheduler ISR (ISR(TIMER2_COMPA_vect)) and boot -/

/-- The observable steps the ISR performs, in program order.  The context
save/restore primitives are opaque external collaborators (spec section
4.3), so they appear as events only. -/
inductive ISREvent where
  | saveContext (pid : Nat)
  | storeSP (pid : Nat)
  | loadISRStack
  | setState (pid : Nat) (st : ProcessState)
  | invokeStrategy (strat : SchedulingStrategy) (cur : Nat)
  | loadSP (pid : Nat)
  | restoreContext (pid : Nat)
deriving DecidableEq, Repr

/-- The scheduler state the ISR reads and writes: the process table, the
current-process index, the configured strategy tag, and the hardware stack
pointer register `SP`. -/
structure ISRState where
  os_processes : List Process
  currentProc : Nat
  currentSchedulingStrategy : SchedulingStrategy
  SP : Nat
deriving DecidableEq, Repr

/-- `os_processes[pid].sp = v`. -/
def setProcSP (ps : List Process) (pid v : Nat) : List Process :=
  ps.set pid { ps.getD pid default with sp := v }

/-- `os_processes[pid].state = st`. -/
def setProcState (ps : List Process) (pid : Nat) (st : ProcessState) :
    List Process :=
  ps.set pid { ps.getD pid default with state := st }

/-- The if/else-if dispatch on `currentSchedulingStrategy` inside the ISR.
The five selectors (`os_Scheduler_Even`, ..., `os_Scheduler_RunToCompletion`)
are external collaborators (spec section 2), passed as parameters; the final
else branch is run-to-completion, as in the source. -/
def strategyDispatch
    (selEven selRandom selRoundRobin selInactiveAging selRunToCompletion :
      List Process → Nat → Nat)
    (strat : SchedulingStrategy) (ps : List Process) (cur : Nat) : Nat :=
  if strat = SchedulingStrategy.OS_SS_EVEN then selEven ps cur
  else if strat = SchedulingStrategy.OS_SS_RANDOM then selRandom ps cur
  else if strat = SchedulingStrategy.OS_SS_ROUND_ROBIN then
    selRoundRobin ps cur
  else if strat = SchedulingStrategy.OS_SS_INACTIVE_AGING then
    selInactiveAging ps cur
  else selRunToCompletion ps cur

/-- `ISR(TIMER2_COMPA_vect)` from os_scheduler.c, one tick: save the running
process's context (opaque, event only), persist the stack pointer into its
slot, switch to the ISR stack (`SP = BOTTOM_OF_ISR_STACK`), demote the
interrupted process RUNNING → READY, dispatch on the strategy tag passing
the (already demoted) table and the preempted id, promote the returned
process to RUNNING, load its stored stack cursor into `SP`, and restore its
context (opaque, event only).  Besides the final state, the returned list
records the steps in program order. -/
def ISR_TIMER2_COMPA
    (selEven selRandom selRoundRobin selInactiveAging selRunToCompletion :
      List Process → Nat → Nat)
    (BOTTOM_OF_ISR_STACK : Nat) (s : ISRState) : ISRState × List ISREvent :=
  let cur := s.currentProc
  let ev1 := [ISREvent.saveContext cur]
  let ps0 := setProcSP s.os_processes cur s.SP
  let ev2 := ev1 ++ [ISREvent.storeSP cur]
  let _spISR := BOTTOM_OF_ISR_STACK
  let ev3 := ev2 ++ [ISREvent.loadISRStack]
  let ps1 := setProcState ps0 cur ProcessState.OS_PS_READY
  let ev4 := ev3 ++ [ISREvent.setState cur ProcessState.OS_PS_READY]
  let next := strategyDispatch selEven selRandom selRoundRobin
    selInactiveAging selRunToCompletion s.currentSchedulingStrategy ps1 cur
  let ev5 := ev4 ++ [ISREvent.invokeStrategy s.currentSchedulingStrategy cur]
  let ps2 := setProcState ps1 next ProcessState.OS_PS_RUNNING
  let ev6 := ev5 ++ [ISREvent.setState next ProcessState.OS_PS_RUNNING]
  let spNext := (ps2.getD next default).sp
  let ev7 := ev6 ++ [ISREvent.loadSP next]
  let ev8 := ev7 ++ [ISREvent.restoreContext next]
  ({ os_processes := ps2, currentProc := next,
     currentSchedulingStrategy := s.currentSchedulingStrategy,
     SP := spNext }, ev8)

/-- Result of `os_startScheduler`: process table, current-process index and
active stack pointer. -/
structure StartResult where
  os_processes : List Process
  currentProc : Nat
  SP : Nat
deriving DecidableEq, Repr

/-- `os_startScheduler` from os_scheduler.c: select process 0, mark it
RUNNING, load its stored stack cursor as the active stack pointer (the
source assigns it to `PS`, a slip for the `SP` register), and restore its
context (opaque collaborator, spec section 4.3). -/
def os_startScheduler (ps : List Process) : StartResult :=
  let currentProc := 0
  let ps1 := setProcState ps currentProc ProcessState.OS_PS_RUNNING
  { os_processes := ps1, currentProc := currentProc,
    SP := (ps1.getD currentProc default).sp }

/-! ### Helper lemmas about the guard -/

theorem testBit1_and_253 (t : Nat) : (t &&& 0b11111101).testBit 1 = false := by
  rw [Nat.testBit_land]
  have h : (0b11111101 : Nat).testBit 1 = false := by decide
  rw [h, Bool.and_false]

theorem testBit1_or_2 (t : Nat) : (t ||| 0b00000010).testBit 1 = true := by
  rw [Nat.testBit_lor]
  have h : (0b00000010 : Nat).testBit 1 = true := by decide
  rw [h, Bool.or_true]

theorem enter_count (s : CriticalState) :
    (os_enterCriticalSection s).criticalSectionCount
      = (s.criticalSectionCount + 1) % 256 := rfl

theorem enter_masked (s : CriticalState) :
    schedulerUnmasked (os_enterCriticalSection s) = false := by
  show (s.TIMSK2 &&& 0b11111101).testBit 1 = false
  exact testBit1_and_253 _

theorem leave_count (s : CriticalState) :
    (os_leaveCriticalSection s).criticalSectionCount
      = (s.criticalSectionCount + 255) % 256 := rfl

theorem leave_TIMSK2 (s : CriticalState) :
    (os_leaveCriticalSection s).TIMSK2 =
      if (s.criticalSectionCount + 255) % 256 < 0 then s.TIMSK2
      else if (s.criticalSectionCount + 255) % 256 = 0 then s.TIMSK2 ||| 0b00000010
      else s.TIMSK2 := rfl

theorem leave_unmasks_iff (s : CriticalState)
    (h : (s.criticalSectionCount + 255) % 256 ≠ 0) :
    schedulerUnmasked (os_leaveCriticalSection s) = schedulerUnmasked s := by
  have h0 : ¬ ((s.criticalSectionCount + 255) % 256 < 0) := Nat.not_lt_zero _
  show (os_leaveCriticalSection s).TIMSK2.testBit 1 = s.TIMSK2.testBit 1
  rw [leave_TIMSK2, if_neg h0, if_neg h]

theorem leave_unmasks_at_zero (s : CriticalState)
    (h : (s.criticalSectionCount + 255) % 256 = 0) :
    schedulerUnmasked (os_leaveCriticalSection s) = true := by
  have h0 : ¬ ((s.criticalSectionCount + 255) % 256 < 0) := Nat.not_lt_zero _
  show (os_leaveCriticalSection s).TIMSK2.testBit 1 = true
  rw [leave_TIMSK2, if_neg h0, if_pos h]
  exact testBit1_or_2 _

theorem enterN_spec (n : Nat) :
    ∀ s : CriticalState, s.criticalSectionCount + n ≤ 255 →
      (enterN n s).criticalSectionCount = s.criticalSectionCount + n ∧
      (1 ≤ n → schedulerUnmasked (enterN n s) = false) := by
  induction n with
  | zero =>
      intro s _
      exact ⟨rfl, fun h => absurd h (by omega)⟩
  | succ m ih =>
      intro s hle
      have hc : (os_enterCriticalSection s).criticalSectionCount
          = s.criticalSectionCount + 1 := by
        rw [enter_count, Nat.mod_eq_of_lt (by omega)]
      have hrec := ih (os_enterCriticalSection s) (by omega)
      constructor
      · show (enterN m (os_enterCriticalSection s)).criticalSectionCount = _
        rw [hrec.1, hc]; omega
      · intro _
        show schedulerUnmasked (enterN m (os_enterCriticalSection s)) = false
        rcases Nat.eq_zero_or_pos m with hm | hm
        · subst hm; exact enter_masked s
        · exact hrec.2 hm

theorem leaveN_spec (j : Nat) :
    ∀ (m : Nat) (s : CriticalState), s.criticalSectionCount = m →
      1 ≤ m → m ≤ 255 → schedulerUnmasked s = false → j ≤ m →
      (leaveN j s).criticalSectionCount = m - j ∧
      schedulerUnmasked (leaveN j s) = decide (j = m) := by
  induction j with
  | zero =>
      intro m s hm h1 _ hmask _
      have h0 : ¬ (0 = m) := by omega
      refine ⟨by simpa [leaveN] using hm, ?_⟩
      simpa [leaveN, h0] using hmask
  | succ i ih =>
      intro m s hm h1 h255 hmask hle
      have hc : (os_leaveCriticalSection s).criticalSectionCount = m - 1 := by
        rw [leave_count, hm]; omega
      have hstep : leaveN (i + 1) s = leaveN i (os_leaveCriticalSection s) := rfl
      rcases Nat.lt_or_ge 1 m with hm2 | hm2
      · -- m ≥ 2: the decremented counter is still positive, mask unchanged
        have hne : (s.criticalSectionCount + 255) % 256 ≠ 0 := by
          rw [hm]; omega
        have hmask1 : schedulerUnmasked (os_leaveCriticalSection s) = false := by
          rw [leave_unmasks_iff s hne, hmask]
        have hrec := ih (m - 1) (os_leaveCriticalSection s) hc (by omega)
          (by omega) hmask1 (by omega)
        rw [hstep]
        refine ⟨by rw [hrec.1]; omega, ?_⟩
        rw [hrec.2]
        exact decide_eq_decide.mpr (by omega)
      · -- m = 1: this is the last leave, it unmasks the scheduler interrupt
        have hm1 : m = 1 := by omega
        have hi0 : i = 0 := by omega
        subst hm1; subst hi0
        have hz : (s.criticalSectionCount + 255) % 256 = 0 := by rw [hm]
        rw [hstep]
        exact ⟨by simpa [leaveN] using hc, by
          simpa [leaveN] using leave_unmasks_at_zero s hz⟩

/-! ### Helper lemmas about the program registry -/

theorem set_getD_self {α : Type} (d : α) :
    ∀ (l : List α) (i : Nat), i < l.length → l.set i (l.getD i d) = l := by
  intro l
  induction l with
  | nil => intro i h; simp at h
  | cons a t ih =>
      intro i h
      cases i with
      | zero => simp [List.getD_cons_zero]
      | succ j =>
          have hj : j < t.length := by simpa using h
          show a :: t.set j ((a :: t).getD (j + 1) d) = a :: t
          rw [List.getD_cons_succ, ih j hj]

theorem getD_lt_length_of_ne_default {α : Type} (l : List α) (i : Nat) (d : α)
    (h : l.getD i d ≠ d) : i < l.length := by
  by_contra hge
  exact h (List.getD_eq_default l d (by omega))

theorem os_registerProgram_scan_finds (progs : List (Option Nat)) (p s : Nat)
    (hocc : progs.getD s none = some p) :
    ∀ fuel slot, fuel + slot = progs.length → slot ≤ s →
      (∀ j, slot ≤ j → j < s →
        progs.getD j none ≠ none ∧ progs.getD j none ≠ some p) →
      (os_registerProgram_scan progs p fuel slot).1 = s := by
  have hs : s < progs.length :=
    getD_lt_length_of_ne_default progs s none (by rw [hocc]; simp)
  intro fuel
  induction fuel with
  | zero =>
      intro slot hlen hle _
      omega
  | succ f ih =>
      intro slot hlen hle hmin
      rcases Nat.eq_or_lt_of_le hle with heq | hlt
      · subst heq
        rw [os_registerProgram_scan, if_neg]
        intro hcond
        exact hcond.2 hocc
      · have hcond := hmin slot le_rfl hlt
        rw [os_registerProgram_scan, if_pos hcond]
        show (os_registerProgram_scan progs p f (slot + 1)).1 = s
        exact ih (slot + 1) (by omega) (by omega)
          (fun j hj1 hj2 => hmin j (by omega) hj2)

/-- C9: the claim says neither `os_registerProgram` nor
`os_lookupProgramFunction` ever reads the program array at an index that is
not strictly below `MAX_NUMBER_OF_PROGRAMS`.  The scan loop of
`os_registerProgram` evaluates `os_programs[slot]` before testing
`slot < MAX_NUMBER_OF_PROGRAMS`, so on a registry that is full of other
programs the final condition evaluation reads index
`MAX_NUMBER_OF_PROGRAMS` itself: with a two-slot registry holding entry
points 10 and 20, registering 30 reads indices 0, 1 and the out-of-bounds
index 2 (and then returns the INVALID_PROGRAM sentinel). -/
theorem C9_registerProgram_reads_out_of_bounds :
    (os_registerProgram [some 10, some 20] 30).accessed = [0, 1, 2] ∧
    ([some 10, some 20] : List (Option Nat)).length
      ∈ (os_registerProgram [some 10, some 20] 30).accessed ∧
    (os_registerProgram [some 10, some 20] 30).ret = none := by
  decide

/-- C10: registering an already-registered program is idempotent: if `p`
occupies slot `s` and every earlier slot holds a different (non-NULL)
program, `os_registerProgram` returns `s` again and leaves the registry
unchanged — no second slot is consumed. -/
theorem C10_registerProgram_idempotent (progs : List (Option Nat)) (p s : Nat)
    (hocc : progs.getD s none = some p)
    (hbefore : ∀ j, j < s →
      progs.getD j none ≠ none ∧ progs.getD j none ≠ some p) :
    (os_registerProgram progs p).ret = some s ∧
    (os_registerProgram progs p).os_programs = progs := by
  have hs : s < progs.length :=
    getD_lt_length_of_ne_default progs s none (by rw [hocc]; simp)
  have hscan : (os_registerProgram_scan progs p progs.length 0).1 = s :=
    os_registerProgram_scan_finds progs p s hocc progs.length 0 (by omega)
      (Nat.zero_le _) (fun j _ hj => hbefore j hj)
  simp only [os_registerProgram]
  rw [hscan, if_neg (by omega)]
  refine ⟨rfl, ?_⟩
  show progs.set s (some p) = progs
  rw [← hocc]
  exact set_getD_self none progs s hs

/-- Witness for C10: a two-slot registry where program 7 already occupies
slot 1 and slot 0 holds a different program. -/
theorem C10_registerProgram_idempotent_witness :
    (os_registerProgram [some 5, some 7] 7).ret = some 1 ∧
    (os_registerProgram [some 5, some 7] 7).os_programs = [some 5, some 7] :=
  C10_registerProgram_idempotent [some 5, some 7] 7 1 (by decide)
    (by decide)

/-! ### Generic list helper lemmas -/

theorem getD_set_self_lt {α : Type} (l : List α) (i : Nat) (a d : α)
    (h : i < l.length) : (l.set i a).getD i d = a := by
  simp [List.getD_eq_getElem?_getD, List.getElem?_set_self', h]

theorem getD_set_ne {α : Type} (l : List α) (i j : Nat) (a d : α)
    (hij : i ≠ j) : (l.set i a).getD j d = l.getD j d := by
  simp [List.getD_eq_getElem?_getD, List.getElem?_set_ne hij]

theorem getD_mem {α : Type} (l : List α) (i : Nat) (d : α)
    (h : i < l.length) : l.getD i d ∈ l := by
  simp [List.getD_eq_getElem?_getD, List.getElem?_eq_getElem h]

theorem countP_set_add {α : Type} (p : α → Bool) :
    ∀ (l : List α) (i : Nat) (a d : α), i < l.length →
      (l.set i a).countP p + (if p (l.getD i d) then 1 else 0)
        = l.countP p + (if p a then 1 else 0) := by
  intro l
  induction l with
  | nil => intro i a d h; simp at h
  | cons x t ih =>
      intro i a d h
      cases i with
      | zero =>
          simp only [List.set_cons_zero, List.countP_cons, List.getD_cons_zero]
          omega
      | succ j =>
          have hj : j < t.length := by simpa using h
          have H := ih j a d hj
          simp only [List.set_cons_succ, List.countP_cons, List.getD_cons_succ]
          omega

/-! ### Helper lemmas about os_exec -/

theorem os_exec_loop_none (ps : List Process) (progs : List (Option Nat))
    (programID priority : Nat) (bottom : Nat → Nat) (mem : Nat → Nat)
    (crit : CriticalState) :
    ∀ fuel pid, fuel + pid = ps.length →
      (∀ j, pid ≤ j → j < ps.length →
        (ps.getD j default).state ≠ ProcessState.OS_PS_UNUSED) →
      os_exec_loop ps progs programID priority bottom mem crit fuel pid
        = { ret := none, os_processes := ps, mem := mem,
            crit := os_leaveCriticalSection crit } := by
  intro fuel
  induction fuel with
  | zero => intro pid _ _; rfl
  | succ f ih =>
      intro pid hlen hall
      have hpid : pid < ps.length := by omega
      rw [os_exec_loop, if_neg (hall pid le_rfl hpid)]
      exact ih (pid + 1) (by omega) (fun j h1 h2 => hall j (by omega) h2)

theorem os_exec_loop_found (ps : List Process) (progs : List (Option Nat))
    (programID priority : Nat) (bottom : Nat → Nat) (mem : Nat → Nat)
    (crit : CriticalState) (pid0 : Nat) (h0 : pid0 < ps.length)
    (hunused : (ps.getD pid0 default).state = ProcessState.OS_PS_UNUSED) :
    ∀ fuel pid, fuel + pid = ps.length → pid ≤ pid0 →
      (∀ j, pid ≤ j → j < pid0 →
        (ps.getD j default).state ≠ ProcessState.OS_PS_UNUSED) →
      os_exec_loop ps progs programID priority bottom mem crit fuel pid
        = os_exec_found ps progs programID priority bottom mem crit pid0 := by
  intro fuel
  induction fuel with
  | zero => intro pid hlen hle _; omega
  | succ f ih =>
      intro pid hlen hle hmin
      rcases Nat.eq_or_lt_of_le hle with heq | hlt
      · subst heq
        rw [os_exec_loop, if_pos hunused]
      · rw [os_exec_loop, if_neg (hmin pid le_rfl hlt)]
        exact ih (pid + 1) (by omega) (by omega)
          (fun j h1 h2 => hmin j (by omega) h2)

theorem os_exec_none_of_full (ps : List Process) (progs : List (Option Nat))
    (programID priority : Nat) (bottom : Nat → Nat) (mem : Nat → Nat)
    (crit : CriticalState)
    (hall : ∀ j, j < ps.length →
      (ps.getD j default).state ≠ ProcessState.OS_PS_UNUSED) :
    os_exec ps progs programID priority bottom mem crit
      = { ret := none, os_processes := ps, mem := mem,
          crit := os_leaveCriticalSection (os_enterCriticalSection crit) } :=
  os_exec_loop_none ps progs programID priority bottom mem
    (os_enterCriticalSection crit) ps.length 0 (by omega)
    (fun j _ h2 => hall j h2)

theorem os_exec_eq_found (ps : List Process) (progs : List (Option Nat))
    (programID priority : Nat) (bottom : Nat → Nat) (mem : Nat → Nat)
    (crit : CriticalState) (pid0 : Nat) (h0 : pid0 < ps.length)
    (hunused : (ps.getD pid0 default).state = ProcessState.OS_PS_UNUSED)
    (hmin : ∀ j, j < pid0 →
      (ps.getD j default).state ≠ ProcessState.OS_PS_UNUSED) :
    os_exec ps progs programID priority bottom mem crit
      = os_exec_found ps progs programID priority bottom mem
          (os_enterCriticalSection crit) pid0 :=
  os_exec_loop_found ps progs programID priority bottom mem
    (os_enterCriticalSection crit) pid0 h0 hunused ps.length 0 (by omega)
    (Nat.zero_le _) (fun j _ h2 => hmin j h2)

theorem os_exec_found_of_none (ps : List Process) (progs : List (Option Nat))
    (programID priority : Nat) (bottom : Nat → Nat) (mem : Nat → Nat)
    (crit : CriticalState) (pid : Nat)
    (hlk : os_lookupProgramFunction progs programID = none) :
    os_exec_found ps progs programID priority bottom mem crit pid
      = { ret := none, os_processes := ps, mem := mem,
          crit := os_leaveCriticalSection crit } := by
  unfold os_exec_found
  rw [hlk]

theorem os_exec_found_of_some (ps : List Process) (progs : List (Option Nat))
    (programID priority : Nat) (bottom : Nat → Nat) (mem : Nat → Nat)
    (crit : CriticalState) (pid f : Nat)
    (hlk : os_lookupProgramFunction progs programID = some f) :
    os_exec_found ps progs programID priority bottom mem crit pid
      = { ret := some pid,
          os_processes := ps.set pid
            { state := ProcessState.OS_PS_READY, priority := priority,
              progID := programID,
              sp := (pushZeros 33
                (((bottom pid % 65536 + 65535) % 65536 + 65535) % 65536)
                (memUpd (memUpd mem (bottom pid % 65536) (f % 256))
                  ((bottom pid % 65536 + 65535) % 65536) (f / 256 % 256))).2 },
          mem := (pushZeros 33
            (((bottom pid % 65536 + 65535) % 65536 + 65535) % 65536)
            (memUpd (memUpd mem (bottom pid % 65536) (f % 256))
              ((bottom pid % 65536 + 65535) % 65536) (f / 256 % 256))).1,
          crit := os_leaveCriticalSection crit } := by
  unfold os_exec_found
  rw [hlk]

theorem pushZeros_spec :
    ∀ (n sp : Nat) (mem : Nat → Nat), n ≤ sp → sp < 65536 →
      (pushZeros n sp mem).2 = sp - n ∧
      (∀ a, sp - n < a → a ≤ sp → (pushZeros n sp mem).1 a = 0) ∧
      (∀ a, a ≤ sp - n ∨ sp < a → (pushZeros n sp mem).1 a = mem a) := by
  intro n
  induction n with
  | zero =>
      intro sp mem _ _
      exact ⟨rfl, fun a h1 h2 => absurd h2 (by omega), fun a _ => rfl⟩
  | succ m ih =>
      intro sp mem hle hlt
      have hsp1 : (sp + 65535) % 65536 = sp - 1 := by omega
      rw [pushZeros, hsp1]
      have ihh := ih (sp - 1) (memUpd mem sp 0) (by omega) (by omega)
      refine ⟨by rw [ihh.1]; omega, ?_, ?_⟩
      · intro a h1 h2
        rcases Nat.lt_or_ge a sp with hlt2 | hge
        · exact ihh.2.1 a (by omega) (by omega)
        · have ha : a = sp := by omega
          rw [ihh.2.2 a (Or.inr (by omega)), ha]
          simp [memUpd]
      · intro a ha
        rcases ha with h1 | h2
        · rw [ihh.2.2 a (Or.inl (by omega))]
          unfold memUpd
          rw [if_neg (by omega)]
        · rw [ihh.2.2 a (Or.inr (by omega))]
          unfold memUpd
          rw [if_neg (by omega)]

/-- Every `os_exec` call either fails leaving the table unchanged, or
converts the first UNUSED slot to a READY slot carrying the given priority
and programID. -/
theorem os_exec_cases (ps : List Process) (progs : List (Option Nat))
    (programID priority : Nat) (bottom : Nat → Nat) (mem : Nat → Nat)
    (crit : CriticalState) :
    ((os_exec ps progs programID priority bottom mem crit).ret = none ∧
      (os_exec ps progs programID priority bottom mem crit).os_processes = ps) ∨
    (∃ pid0 spv, pid0 < ps.length ∧
      (ps.getD pid0 default).state = ProcessState.OS_PS_UNUSED ∧
      (os_exec ps progs programID priority bottom mem crit).ret = some pid0 ∧
      (os_exec ps progs programID priority bottom mem crit).os_processes
        = ps.set pid0
            { state := ProcessState.OS_PS_READY, priority := priority,
              progID := programID, sp := spv }) := by
  by_cases h : ∃ j, j < ps.length ∧
      (ps.getD j default).state = ProcessState.OS_PS_UNUSED
  · have hspec := Nat.find_spec h
    have hmin : ∀ j, j < Nat.find h →
        (ps.getD j default).state ≠ ProcessState.OS_PS_UNUSED := by
      intro j hj hst
      exact Nat.find_min h hj ⟨by omega, hst⟩
    have hfound := os_exec_eq_found ps progs programID priority bottom mem
      crit (Nat.find h) hspec.1 hspec.2 hmin
    cases hlk : os_lookupProgramFunction progs programID with
    | none =>
        left
        rw [hfound, os_exec_found_of_none ps progs programID priority bottom
          mem (os_enterCriticalSection crit) (Nat.find h) hlk]
        exact ⟨rfl, rfl⟩
    | some f =>
        right
        rw [hfound, os_exec_found_of_some ps progs programID priority bottom
          mem (os_enterCriticalSection crit) (Nat.find h) f hlk]
        exact ⟨Nat.find h, _, hspec.1, hspec.2, rfl, rfl⟩
  · left
    push_neg at h
    rw [os_exec_none_of_full ps progs programID priority bottom mem crit h]
    exact ⟨rfl, rfl⟩

/-- `os_exec` never changes the number of RUNNING slots (C8's third leg). -/
theorem os_exec_runningCount (ps : List Process) (progs : List (Option Nat))
    (programID priority : Nat) (bottom : Nat → Nat) (mem : Nat → Nat)
    (crit : CriticalState) :
    runningCount
        (os_exec ps progs programID priority bottom mem crit).os_processes
      = runningCount ps := by
  rcases os_exec_cases ps progs programID priority bottom mem crit with
    ⟨_, htab⟩ | ⟨pid0, spv, hlt, hun, _, htab⟩
  · rw [htab]
  · rw [htab]
    unfold runningCount
    have H := countP_set_add
      (fun p => decide (p.state = ProcessState.OS_PS_RUNNING)) ps pid0
      { state := ProcessState.OS_PS_READY, priority := priority,
        progID := programID, sp := spv } default hlt
    simp only [hun] at H
    simpa using H

/-- `os_exec` removes exactly one UNUSED slot on success. -/
theorem os_exec_unusedCount (ps : List Process) (progs : List (Option Nat))
    (programID priority : Nat) (bottom : Nat → Nat) (mem : Nat → Nat)
    (crit : CriticalState) (pid0 : Nat)
    (hret : (os_exec ps progs programID priority bottom mem crit).ret
      = some pid0) :
    unusedCount
          (os_exec ps progs programID priority bottom mem crit).os_processes
        + 1
      = unusedCount ps := by
  rcases os_exec_cases ps progs programID priority bottom mem crit with
    ⟨hnone, _⟩ | ⟨pid1, spv, hlt, hun, _, htab⟩
  · rw [hret] at hnone
    exact Option.noConfusion hnone
  · rw [htab]
    unfold unusedCount
    have H := countP_set_add
      (fun p => decide (p.state = ProcessState.OS_PS_UNUSED)) ps pid1
      { state := ProcessState.OS_PS_READY, priority := priority,
        progID := programID, sp := spv } default hlt
    simp only [hun] at H
    simpa using H

/-- `os_exec` preserves the table capacity. -/
theorem os_exec_length (ps : List Process) (progs : List (Option Nat))
    (programID priority : Nat) (bottom : Nat → Nat) (mem : Nat → Nat)
    (crit : CriticalState) :
    (os_exec ps progs programID priority bottom mem crit).os_processes.length
      = ps.length := by
  rcases os_exec_cases ps progs programID priority bottom mem crit with
    ⟨_, htab⟩ | ⟨pid0, spv, _, _, _, htab⟩ <;> simp [htab]

/-- The success count of any sequence of `os_exec` calls is bounded by the
number of UNUSED slots available at the start. -/
theorem execSeq_le_unused (progs : List (Option Nat)) (bottom : Nat → Nat) :
    ∀ (calls : List (Nat × Nat)) (ps : List Process) (mem : Nat → Nat)
      (crit : CriticalState),
      (execSeq progs bottom calls ps mem crit).2 ≤ unusedCount ps := by
  intro calls
  induction calls with
  | nil => intro ps mem crit; exact Nat.zero_le _
  | cons c rest ih =>
      intro ps mem crit
      show (execSeq progs bottom rest
          (os_exec ps progs c.1 c.2 bottom mem crit).os_processes
          (os_exec ps progs c.1 c.2 bottom mem crit).mem
          (os_exec ps progs c.1 c.2 bottom mem crit).crit).2
        + (if (os_exec ps progs c.1 c.2 bottom mem crit).ret = none
            then 0 else 1) ≤ unusedCount ps
      have htail := ih (os_exec ps progs c.1 c.2 bottom mem crit).os_processes
        (os_exec ps progs c.1 c.2 bottom mem crit).mem
        (os_exec ps progs c.1 c.2 bottom mem crit).crit
      cases hret : (os_exec ps progs c.1 c.2 bottom mem crit).ret with
      | none =>
          rcases os_exec_cases ps progs c.1 c.2 bottom mem crit with
            ⟨_, htab⟩ | ⟨pid0, spv, _, _, hsome, _⟩
          · rw [htab] at htail ⊢
            simp only [eq_self_iff_true, if_true]
            omega
          · rw [hret] at hsome
            exact Option.noConfusion hsome
      | some pid0 =>
          have hcount := os_exec_unusedCount ps progs c.1 c.2 bottom mem crit
            pid0 hret
          have hne : ¬ ((some pid0 : Option Nat) = none) := by simp
          rw [if_neg hne]
          omega

/-- C1: the claim says each excess `os_leaveCriticalSection` call triggers the
fatal error path (the error collaborator) exactly once and the nesting counter
never silently wraps below zero.  The code does the opposite: the counter is a
`uint8_t`, the `< 0` test is always false after integer promotion, so an
excess leave at depth 0 wraps the counter to 255 and never reports an error.
First two conjuncts evaluate the code at the failing input (a single leave at
nesting depth 0); the last shows the error collaborator is never invoked by
any `os_leaveCriticalSection` call whatsoever. -/
theorem C1_excess_leave_silent_wrap :
    (os_leaveCriticalSection ⟨0, 0b10000000, 0b00000010, 0⟩).errorCalls = 0 ∧
    (os_leaveCriticalSection ⟨0, 0b10000000, 0b00000010, 0⟩).criticalSectionCount
      = 255 ∧
    ∀ s : CriticalState,
      (os_leaveCriticalSection s).errorCalls = s.errorCalls := by
  refine ⟨by decide, by decide, ?_⟩
  intro s
  show (if (s.criticalSectionCount + 255) % 256 < 0 then s.errorCalls + 1
        else s.errorCalls) = s.errorCalls
  rw [if_neg (Nat.not_lt_zero _)]

/-- C2: the claim says `os_getInput` compacts the active-low button bits into
the low-order result bits only (pins 6 and 7 shifted down to bits 2 and 3,
nothing else set); in particular raw `PINC` with bits 7 and 0 asserted
(active-low, so those bits read 0) should yield exactly bits 0 and 3.  The
code keeps the two original high bits as well (`a |= b` without masking), so
that input yields `0b10001001`, not `0b00001001`, and the doc-comment example
(buttons 1, 3, 4 pushed yields `0b00001101`) evaluates to `0b11001101`. -/
theorem C2_getInput_high_bits_not_masked :
    os_getInput 0b01111110 = 0b10001001 ∧
    os_getInput 0b01111110 ≠ 0b00001001 ∧
    (os_getInput 0b01111110).testBit 7 = true ∧
    os_getInput 0b00111110 = 0b11001101 := by
  decide

/-- C6: for 1 ≤ N ≤ 255, a balanced sequence of N
`os_enterCriticalSection` calls followed by N `os_leaveCriticalSection` calls
starting at nesting depth zero keeps the scheduler's triggering interrupt
source (OCIE2A, TIMSK2 bit 1) masked from the first enter onward, through
every intermediate point, and unmasks it exactly at the Nth leave. -/
theorem C6_nested_critical_sections_mask (s0 : CriticalState) (N : Nat)
    (h0 : s0.criticalSectionCount = 0) (h1 : 1 ≤ N) (h255 : N ≤ 255) :
    (∀ k, 1 ≤ k → k ≤ N → schedulerUnmasked (enterN k s0) = false) ∧
    (∀ j, j < N → schedulerUnmasked (leaveN j (enterN N s0)) = false) ∧
    schedulerUnmasked (leaveN N (enterN N s0)) = true := by
  have hN := enterN_spec N s0 (by omega)
  have hcount : (enterN N s0).criticalSectionCount = N := by
    rw [hN.1, h0]; omega
  have hmaskN : schedulerUnmasked (enterN N s0) = false := hN.2 h1
  refine ⟨?_, ?_, ?_⟩
  · intro k hk1 hkN
    exact (enterN_spec k s0 (by omega)).2 hk1
  · intro j hj
    have h := leaveN_spec j N (enterN N s0) hcount h1 h255 hmaskN (by omega)
    rw [h.2]
    exact decide_eq_false (by omega)
  · have h := leaveN_spec N N (enterN N s0) hcount h1 h255 hmaskN le_rfl
    rw [h.2]
    exact decide_eq_true rfl

/-- Witness for C6 at N = 2 from a concrete initial state. -/
theorem C6_nested_critical_sections_mask_witness :
    schedulerUnmasked (enterN 1 ⟨0, 0, 0b00000010, 0⟩) = false ∧
    schedulerUnmasked (leaveN 1 (enterN 2 ⟨0, 0, 0b00000010, 0⟩)) = false ∧
    schedulerUnmasked (leaveN 2 (enterN 2 ⟨0, 0, 0b00000010, 0⟩)) = true :=
  ⟨(C6_nested_critical_sections_mask ⟨0, 0, 0b00000010, 0⟩ 2 rfl (by decide)
      (by decide)).1 1 (by decide) (by decide),
   (C6_nested_critical_sections_mask ⟨0, 0, 0b00000010, 0⟩ 2 rfl (by decide)
      (by decide)).2.1 1 (by decide),
   (C6_nested_critical_sections_mask ⟨0, 0, 0b00000010, 0⟩ 2 rfl (by decide)
      (by decide)).2.2⟩

/-- C3: with a programID that resolves to a registered entry point, every
`os_exec` call either returns the first slot that was UNUSED — afterwards
READY with exactly the given priority and programID — or INVALID_PROCESS
(modelled as `none`) once no UNUSED slot remains; and over any sequence of
`os_exec` calls the number of successes never exceeds the table capacity
(the table length, `MAX_NUMBER_OF_PROCESSES`). -/
theorem C3_exec_first_unused_and_capacity (ps : List Process)
    (progs : List (Option Nat)) (programID priority : Nat)
    (bottom : Nat → Nat) (mem : Nat → Nat) (crit : CriticalState)
    (hreg : os_lookupProgramFunction progs programID ≠ none) :
    (∀ pid0, pid0 < ps.length →
      (ps.getD pid0 default).state = ProcessState.OS_PS_UNUSED →
      (∀ j, j < pid0 →
        (ps.getD j default).state ≠ ProcessState.OS_PS_UNUSED) →
      (os_exec ps progs programID priority bottom mem crit).ret = some pid0 ∧
      ((os_exec ps progs programID priority bottom mem crit).os_processes.getD
          pid0 default).state = ProcessState.OS_PS_READY ∧
      ((os_exec ps progs programID priority bottom mem crit).os_processes.getD
          pid0 default).priority = priority ∧
      ((os_exec ps progs programID priority bottom mem crit).os_processes.getD
          pid0 default).progID = programID) ∧
    ((∀ j, j < ps.length →
        (ps.getD j default).state ≠ ProcessState.OS_PS_UNUSED) →
      (os_exec ps progs programID priority bottom mem crit).ret = none) ∧
    (∀ (calls : List (Nat × Nat)) (ps1 : List Process) (mem1 : Nat → Nat)
      (crit1 : CriticalState),
      (execSeq progs bottom calls ps1 mem1 crit1).2 ≤ ps1.length) := by
  refine ⟨?_, ?_, ?_⟩
  · intro pid0 hlt hun hmin
    rcases Option.ne_none_iff_exists'.mp hreg with ⟨f, hf⟩
    rw [os_exec_eq_found ps progs programID priority bottom mem crit pid0 hlt
        hun hmin,
      os_exec_found_of_some ps progs programID priority bottom mem
        (os_enterCriticalSection crit) pid0 f hf]
    refine ⟨rfl, ?_, ?_, ?_⟩ <;>
      rw [getD_set_self_lt ps pid0 _ default hlt]
  · intro hall
    rw [os_exec_none_of_full ps progs programID priority bottom mem crit hall]
  · intro calls ps1 mem1 crit1
    exact Nat.le_trans (execSeq_le_unused progs bottom calls ps1 mem1 crit1)
      (List.countP_le_length _)

/-- Witness for C3: a one-slot table and a registry holding entry point 3;
the capacity part is instantiated with a two-call sequence. -/
theorem C3_exec_first_unused_and_capacity_witness :
    (os_exec [Process.mk ProcessState.OS_PS_UNUSED 0 0 0] [some 3] 0 5
        (fun _ => 100) (fun _ => 0) ⟨0, 0, 0, 0⟩).ret = some 0 ∧
    ((os_exec [Process.mk ProcessState.OS_PS_UNUSED 0 0 0] [some 3] 0 5
        (fun _ => 100) (fun _ => 0) ⟨0, 0, 0, 0⟩).os_processes.getD 0
        default).state = ProcessState.OS_PS_READY ∧
    (execSeq [some 3] (fun _ => 100) [(0, 5), (0, 6)]
        [Process.mk ProcessState.OS_PS_UNUSED 0 0 0] (fun _ => 0)
        ⟨0, 0, 0, 0⟩).2
      ≤ [Process.mk ProcessState.OS_PS_UNUSED 0 0 0].length := by
  have h := C3_exec_first_unused_and_capacity
    [Process.mk ProcessState.OS_PS_UNUSED 0 0 0] [some 3] 0 5 (fun _ => 100)
    (fun _ => 0) ⟨0, 0, 0, 0⟩ (by decide)
  exact ⟨(h.1 0 (by decide) (by decide)
      (fun j hj => absurd hj (Nat.not_lt_zero j))).1,
    (h.1 0 (by decide) (by decide)
      (fun j hj => absurd hj (Nat.not_lt_zero j))).2.1,
    h.2.2 [(0, 5), (0, 6)] [Process.mk ProcessState.OS_PS_UNUSED 0 0 0]
      (fun _ => 0) ⟨0, 0, 0, 0⟩⟩

/-- C7: when the programID does not resolve to a registered entry point
(out of range or an unregistered NULL slot, i.e. `os_lookupProgramFunction`
yields NULL), `os_exec` returns INVALID_PROCESS and the process table — and
the stack memory — are left completely unchanged: no slot is consumed. -/
theorem C7_exec_unresolved_program_no_change (ps : List Process)
    (progs : List (Option Nat)) (programID priority : Nat)
    (bottom : Nat → Nat) (mem : Nat → Nat) (crit : CriticalState)
    (hlk : os_lookupProgramFunction progs programID = none) :
    (os_exec ps progs programID priority bottom mem crit).ret = none ∧
    (os_exec ps progs programID priority bottom mem crit).os_processes = ps ∧
    (os_exec ps progs programID priority bottom mem crit).mem = mem := by
  by_cases h : ∃ j, j < ps.length ∧
      (ps.getD j default).state = ProcessState.OS_PS_UNUSED
  · have hspec := Nat.find_spec h
    have hlen : Nat.find h < ps.length := hspec.1
    have hmin : ∀ j, j < Nat.find h →
        (ps.getD j default).state ≠ ProcessState.OS_PS_UNUSED := by
      intro j hj hst
      exact Nat.find_min h hj ⟨by omega, hst⟩
    rw [os_exec_eq_found ps progs programID priority bottom mem crit
        (Nat.find h) hspec.1 hspec.2 hmin,
      os_exec_found_of_none ps progs programID priority bottom mem
        (os_enterCriticalSection crit) (Nat.find h) hlk]
    exact ⟨rfl, rfl, rfl⟩
  · push_neg at h
    rw [os_exec_none_of_full ps progs programID priority bottom mem crit h]
    exact ⟨rfl, rfl, rfl⟩

/-- Witness for C7: a table with a free slot and an empty registry, so
program id 0 does not resolve. -/
theorem C7_exec_unresolved_program_no_change_witness :
    (os_exec [Process.mk ProcessState.OS_PS_UNUSED 0 0 0] [] 0 1
        (fun _ => 64) (fun _ => 0) ⟨0, 0, 0, 0⟩).ret = none ∧
    (os_exec [Process.mk ProcessState.OS_PS_UNUSED 0 0 0] [] 0 1
        (fun _ => 64) (fun _ => 0) ⟨0, 0, 0, 0⟩).os_processes
      = [Process.mk ProcessState.OS_PS_UNUSED 0 0 0] ∧
    (os_exec [Process.mk ProcessState.OS_PS_UNUSED 0 0 0] [] 0 1
        (fun _ => 64) (fun _ => 0) ⟨0, 0, 0, 0⟩).mem = (fun _ => 0) :=
  C7_exec_unresolved_program_no_change
    [Process.mk ProcessState.OS_PS_UNUSED 0 0 0] [] 0 1 (fun _ => 64)
    (fun _ => 0) ⟨0, 0, 0, 0⟩ (by decide)

/-- C5: a successful `os_exec` seeds the new process's stack region with,
at the stack bottom, the entry point's low byte, one address below it the
entry point's high byte (the synthesized return address), followed by
exactly 33 zeroed bytes (SREG plus the 32 registers `restoreContext` pops),
and stores a stack cursor pointing just below this frame
(`PROCESS_STACK_BOTTOM(pid) - 35`). -/
theorem C5_exec_initial_stack_frame (ps : List Process)
    (progs : List (Option Nat)) (programID priority : Nat)
    (bottom : Nat → Nat) (mem : Nat → Nat) (crit : CriticalState)
    (pid0 f : Nat) (hlt : pid0 < ps.length)
    (hun : (ps.getD pid0 default).state = ProcessState.OS_PS_UNUSED)
    (hmin : ∀ j, j < pid0 →
      (ps.getD j default).state ≠ ProcessState.OS_PS_UNUSED)
    (hlk : os_lookupProgramFunction progs programID = some f)
    (hb1 : 35 ≤ bottom pid0) (hb2 : bottom pid0 < 65536) :
    (os_exec ps progs programID priority bottom mem crit).mem (bottom pid0)
      = f % 256 ∧
    (os_exec ps progs programID priority bottom mem crit).mem
        (bottom pid0 - 1) = f / 256 % 256 ∧
    (∀ i, i < 33 →
      (os_exec ps progs programID priority bottom mem crit).mem
        (bottom pid0 - 2 - i) = 0) ∧
    ((os_exec ps progs programID priority bottom mem crit).os_processes.getD
        pid0 default).sp = bottom pid0 - 35 ∧
    (os_exec ps progs programID priority bottom mem crit).ret = some pid0 := by
  have e0 : bottom pid0 % 65536 = bottom pid0 := Nat.mod_eq_of_lt hb2
  have e1 : (bottom pid0 + 65535) % 65536 = bottom pid0 - 1 := by omega
  have e2 : (bottom pid0 - 1 + 65535) % 65536 = bottom pid0 - 2 := by omega
  have hmem : (os_exec ps progs programID priority bottom mem crit).mem
      = (pushZeros 33
          (((bottom pid0 % 65536 + 65535) % 65536 + 65535) % 65536)
          (memUpd (memUpd mem (bottom pid0 % 65536) (f % 256))
            ((bottom pid0 % 65536 + 65535) % 65536) (f / 256 % 256))).1 := by
    rw [os_exec_eq_found ps progs programID priority bottom mem crit pid0 hlt
        hun hmin,
      os_exec_found_of_some ps progs programID priority bottom mem
        (os_enterCriticalSection crit) pid0 f hlk]
  have htab : (os_exec ps progs programID priority bottom mem
      crit).os_processes
      = ps.set pid0
          { state := ProcessState.OS_PS_READY, priority := priority,
            progID := programID,
            sp := (pushZeros 33
              (((bottom pid0 % 65536 + 65535) % 65536 + 65535) % 65536)
              (memUpd (memUpd mem (bottom pid0 % 65536) (f % 256))
                ((bottom pid0 % 65536 + 65535) % 65536)
                (f / 256 % 256))).2 } := by
    rw [os_exec_eq_found ps progs programID priority bottom mem crit pid0 hlt
        hun hmin,
      os_exec_found_of_some ps progs programID priority bottom mem
        (os_enterCriticalSection crit) pid0 f hlk]
  have hret : (os_exec ps progs programID priority bottom mem crit).ret
      = some pid0 := by
    rw [os_exec_eq_found ps progs programID priority bottom mem crit pid0 hlt
        hun hmin,
      os_exec_found_of_some ps progs programID priority bottom mem
        (os_enterCriticalSection crit) pid0 f hlk]
  rw [e0, e1, e2] at hmem htab
  have hz := pushZeros_spec 33 (bottom pid0 - 2)
    (memUpd (memUpd mem (bottom pid0) (f % 256)) (bottom pid0 - 1)
      (f / 256 % 256)) (by omega) (by omega)
  refine ⟨?_, ?_, ?_, ?_, hret⟩
  · rw [hmem, hz.2.2 (bottom pid0) (Or.inr (by omega))]
    unfold memUpd
    rw [if_neg (by omega), if_pos rfl]
  · rw [hmem, hz.2.2 (bottom pid0 - 1) (Or.inr (by omega))]
    unfold memUpd
    rw [if_pos rfl]
  · intro i hi
    rw [hmem]
    exact hz.2.1 (bottom pid0 - 2 - i) (by omega) (by omega)
  · rw [htab, getD_set_self_lt ps pid0 _ default hlt]
    show (pushZeros 33 (bottom pid0 - 2)
      (memUpd (memUpd mem (bottom pid0) (f % 256)) (bottom pid0 - 1)
        (f / 256 % 256))).2 = bottom pid0 - 35
    rw [hz.1]
    omega

/-- Witness for C5: one free slot, entry point 0x1234 = 4660, stack bottom
100; the zero-byte clause is instantiated at offset 5. -/
theorem C5_exec_initial_stack_frame_witness :
    (os_exec [Process.mk ProcessState.OS_PS_UNUSED 0 0 0] [some 4660] 0 5
        (fun _ => 100) (fun _ => 7) ⟨0, 0, 0, 0⟩).mem 100 = 4660 % 256 ∧
    (os_exec [Process.mk ProcessState.OS_PS_UNUSED 0 0 0] [some 4660] 0 5
        (fun _ => 100) (fun _ => 7) ⟨0, 0, 0, 0⟩).mem 99 = 4660 / 256 % 256 ∧
    (os_exec [Process.mk ProcessState.OS_PS_UNUSED 0 0 0] [some 4660] 0 5
        (fun _ => 100) (fun _ => 7) ⟨0, 0, 0, 0⟩).mem (100 - 2 - 5) = 0 ∧
    ((os_exec [Process.mk ProcessState.OS_PS_UNUSED 0 0 0] [some 4660] 0 5
        (fun _ => 100) (fun _ => 7) ⟨0, 0, 0, 0⟩).os_processes.getD 0
        default).sp = 100 - 35 ∧
    (os_exec [Process.mk ProcessState.OS_PS_UNUSED 0 0 0] [some 4660] 0 5
        (fun _ => 100) (fun _ => 7) ⟨0, 0, 0, 0⟩).ret = some 0 := by
  have h := C5_exec_initial_stack_frame
    [Process.mk ProcessState.OS_PS_UNUSED 0 0 0] [some 4660] 0 5
    (fun _ => 100) (fun _ => 7) ⟨0, 0, 0, 0⟩ 0 4660 (by decide) (by decide)
    (fun j hj => absurd hj (Nat.not_lt_zero j)) (by decide) (by decide)
    (by decide)
  exact ⟨h.1, h.2.1, h.2.2.1 5 (by decide), h.2.2.2.1, h.2.2.2.2⟩

/-- C4: on every tick the ISR performs, in program order: save the running
process's context on its own stack, persist its stack cursor into its slot,
switch to the dedicated ISR stack, demote the interrupted process
RUNNING → READY, invoke the selector matching the configured strategy tag
on the process table and the preempted id, promote the selected process to
RUNNING, load its stack cursor, and restore its context.  The demotion to
READY happens strictly before the strategy is consulted: the trace places
the `setState … READY` event before `invokeStrategy`, and the table handed
to the dispatch (`ps1`) already has the preempted process in state READY
with its stack cursor persisted. -/
theorem C4_isr_tick_sequence
    (selEven selRandom selRoundRobin selInactiveAging selRunToCompletion :
      List Process → Nat → Nat)
    (BOTTOM_OF_ISR_STACK : Nat) (s : ISRState) (ps1 : List Process)
    (next : Nat)
    (hcur : s.currentProc < s.os_processes.length)
    (hrun : (s.os_processes.getD s.currentProc default).state
      = ProcessState.OS_PS_RUNNING)
    (hps1 : ps1 = setProcState
      (setProcSP s.os_processes s.currentProc s.SP) s.currentProc
      ProcessState.OS_PS_READY)
    (hnext : next = strategyDispatch selEven selRandom selRoundRobin
      selInactiveAging selRunToCompletion s.currentSchedulingStrategy ps1
      s.currentProc) :
    (ISR_TIMER2_COMPA selEven selRandom selRoundRobin selInactiveAging
        selRunToCompletion BOTTOM_OF_ISR_STACK s).2 =
      [ISREvent.saveContext s.currentProc, ISREvent.storeSP s.currentProc,
       ISREvent.loadISRStack,
       ISREvent.setState s.currentProc ProcessState.OS_PS_READY,
       ISREvent.invokeStrategy s.currentSchedulingStrategy s.currentProc,
       ISREvent.setState next ProcessState.OS_PS_RUNNING,
       ISREvent.loadSP next, ISREvent.restoreContext next] ∧
    (ps1.getD s.currentProc default).state = ProcessState.OS_PS_READY ∧
    (ps1.getD s.currentProc default).sp = s.SP ∧
    (ISR_TIMER2_COMPA selEven selRandom selRoundRobin selInactiveAging
        selRunToCompletion BOTTOM_OF_ISR_STACK s).1.os_processes
      = setProcState ps1 next ProcessState.OS_PS_RUNNING ∧
    (ISR_TIMER2_COMPA selEven selRandom selRoundRobin selInactiveAging
        selRunToCompletion BOTTOM_OF_ISR_STACK s).1.currentProc = next ∧
    (ISR_TIMER2_COMPA selEven selRandom selRoundRobin selInactiveAging
        selRunToCompletion BOTTOM_OF_ISR_STACK s).1.SP
      = ((setProcState ps1 next ProcessState.OS_PS_RUNNING).getD next
          default).sp ∧
    (s.currentSchedulingStrategy = SchedulingStrategy.OS_SS_EVEN →
      next = selEven ps1 s.currentProc) ∧
    (s.currentSchedulingStrategy = SchedulingStrategy.OS_SS_RANDOM →
      next = selRandom ps1 s.currentProc) ∧
    (s.currentSchedulingStrategy = SchedulingStrategy.OS_SS_ROUND_ROBIN →
      next = selRoundRobin ps1 s.currentProc) ∧
    (s.currentSchedulingStrategy = SchedulingStrategy.OS_SS_INACTIVE_AGING →
      next = selInactiveAging ps1 s.currentProc) ∧
    (s.currentSchedulingStrategy
        = SchedulingStrategy.OS_SS_RUN_TO_COMPLETION →
      next = selRunToCompletion ps1 s.currentProc) := by
  have hcur0 : s.currentProc
      < (setProcSP s.os_processes s.currentProc s.SP).length := by
    simpa [setProcSP] using hcur
  subst hps1
  subst hnext
  refine ⟨rfl, ?_, ?_, rfl, rfl, rfl, ?_, ?_, ?_, ?_, ?_⟩
  · unfold setProcState
    rw [getD_set_self_lt _ _ _ default hcur0]
  · unfold setProcState
    rw [getD_set_self_lt _ _ _ default hcur0]
    show ((setProcSP s.os_processes s.currentProc s.SP).getD s.currentProc
      default).sp = s.SP
    unfold setProcSP
    rw [getD_set_self_lt _ _ _ default hcur]
  · intro h; rw [h]; simp [strategyDispatch]
  · intro h; rw [h]; simp [strategyDispatch]
  · intro h; rw [h]; simp [strategyDispatch]
  · intro h; rw [h]; simp [strategyDispatch]
  · intro h; rw [h]; simp [strategyDispatch]

/-- Witness for C4: a one-process table with the process RUNNING, round
robin configured, and constant selectors. -/
theorem C4_isr_tick_sequence_witness :
    (ISR_TIMER2_COMPA (fun _ _ => 0) (fun _ _ => 0) (fun _ _ => 0)
        (fun _ _ => 0) (fun _ _ => 0) 999
        ⟨[Process.mk ProcessState.OS_PS_RUNNING 1 0 77], 0,
          SchedulingStrategy.OS_SS_ROUND_ROBIN, 55⟩).2 =
      [ISREvent.saveContext 0, ISREvent.storeSP 0, ISREvent.loadISRStack,
       ISREvent.setState 0 ProcessState.OS_PS_READY,
       ISREvent.invokeStrategy SchedulingStrategy.OS_SS_ROUND_ROBIN 0,
       ISREvent.setState 0 ProcessState.OS_PS_RUNNING,
       ISREvent.loadSP 0, ISREvent.restoreContext 0] ∧
    (([Process.mk ProcessState.OS_PS_READY 1 0 55] : List Process).getD 0
        default).state = ProcessState.OS_PS_READY ∧
    (([Process.mk ProcessState.OS_PS_READY 1 0 55] : List Process).getD 0
        default).sp = 55 ∧
    (ISR_TIMER2_COMPA (fun _ _ => 0) (fun _ _ => 0) (fun _ _ => 0)
        (fun _ _ => 0) (fun _ _ => 0) 999
        ⟨[Process.mk ProcessState.OS_PS_RUNNING 1 0 77], 0,
          SchedulingStrategy.OS_SS_ROUND_ROBIN, 55⟩).1.os_processes
      = setProcState [Process.mk ProcessState.OS_PS_READY 1 0 55] 0
          ProcessState.OS_PS_RUNNING ∧
    (ISR_TIMER2_COMPA (fun _ _ => 0) (fun _ _ => 0) (fun _ _ => 0)
        (fun _ _ => 0) (fun _ _ => 0) 999
        ⟨[Process.mk ProcessState.OS_PS_RUNNING 1 0 77], 0,
          SchedulingStrategy.OS_SS_ROUND_ROBIN, 55⟩).1.currentProc = 0 := by
  have h := C4_isr_tick_sequence (fun _ _ => 0) (fun _ _ => 0)
    (fun _ _ => 0) (fun _ _ => 0) (fun _ _ => 0) 999
    ⟨[Process.mk ProcessState.OS_PS_RUNNING 1 0 77], 0,
      SchedulingStrategy.OS_SS_ROUND_ROBIN, 55⟩
    [Process.mk ProcessState.OS_PS_READY 1 0 55] 0 (by decide) (by decide)
    (by decide) (by decide)
  exact ⟨h.1, h.2.1, h.2.2.1, h.2.2.2.1, h.2.2.2.2.1⟩

theorem runningCount_set (ps : List Process) (i : Nat) (q : Process)
    (h : i < ps.length) :
    runningCount (ps.set i q)
        + (if (ps.getD i default).state = ProcessState.OS_PS_RUNNING
            then 1 else 0)
      = runningCount ps
        + (if q.state = ProcessState.OS_PS_RUNNING then 1 else 0) := by
  have H := countP_set_add
    (fun p => decide (p.state = ProcessState.OS_PS_RUNNING)) ps i q default h
  unfold runningCount
  simpa using H

theorem runningCount_setProcState (ps : List Process) (i : Nat)
    (st : ProcessState) (h : i < ps.length) :
    runningCount (setProcState ps i st)
        + (if (ps.getD i default).state = ProcessState.OS_PS_RUNNING
            then 1 else 0)
      = runningCount ps
        + (if st = ProcessState.OS_PS_RUNNING then 1 else 0) := by
  have H := runningCount_set ps i { ps.getD i default with state := st } h
  rw [show ({ ps.getD i default with state := st } : Process).state = st
    from rfl] at H
  exact H

theorem runningCount_setProcSP (ps : List Process) (i v : Nat)
    (h : i < ps.length) :
    runningCount (setProcSP ps i v) = runningCount ps := by
  have H := runningCount_set ps i { ps.getD i default with sp := v } h
  rw [show ({ ps.getD i default with sp := v } : Process).state
      = (ps.getD i default).state from rfl] at H
  unfold setProcSP
  omega

theorem getD_setProcState_self (ps : List Process) (i : Nat)
    (st : ProcessState) (h : i < ps.length) :
    ((setProcState ps i st).getD i default).state = st := by
  unfold setProcState
  rw [getD_set_self_lt _ _ _ default h]

theorem getD_setProcSP_self_state (ps : List Process) (i v : Nat)
    (h : i < ps.length) :
    ((setProcSP ps i v).getD i default).state
      = (ps.getD i default).state := by
  unfold setProcSP
  rw [getD_set_self_lt _ _ _ default h]

/-- C8: exactly one process is RUNNING outside the ISR.
First leg: from a table with no RUNNING process, `os_startScheduler` makes
process 0 the unique RUNNING process.  Second leg: a complete tick preserves
uniqueness — the ISR demotes the unique RUNNING process and promotes exactly
the strategy's choice (assumed in range, as the strategy contract requires).
Third leg: `os_exec` never changes the number of RUNNING processes (it only
ever creates a READY slot). -/
theorem C8_unique_running_invariant :
    (∀ ps : List Process, 0 < ps.length → runningCount ps = 0 →
      runningCount (os_startScheduler ps).os_processes = 1 ∧
      ((os_startScheduler ps).os_processes.getD 0 default).state
        = ProcessState.OS_PS_RUNNING ∧
      (os_startScheduler ps).currentProc = 0) ∧
    (∀ (selE selR selRR selIA selRTC : List Process → Nat → Nat)
      (BOTTOM : Nat) (s : ISRState),
      s.currentProc < s.os_processes.length →
      (s.os_processes.getD s.currentProc default).state
        = ProcessState.OS_PS_RUNNING →
      runningCount s.os_processes = 1 →
      (ISR_TIMER2_COMPA selE selR selRR selIA selRTC BOTTOM
          s).1.currentProc < s.os_processes.length →
      runningCount (ISR_TIMER2_COMPA selE selR selRR selIA selRTC BOTTOM
          s).1.os_processes = 1 ∧
      ((ISR_TIMER2_COMPA selE selR selRR selIA selRTC BOTTOM
          s).1.os_processes.getD
          (ISR_TIMER2_COMPA selE selR selRR selIA selRTC BOTTOM
            s).1.currentProc default).state = ProcessState.OS_PS_RUNNING) ∧
    (∀ (ps : List Process) (progs : List (Option Nat))
      (programID priority : Nat) (bottom : Nat → Nat) (mem : Nat → Nat)
      (crit : CriticalState),
      runningCount
          (os_exec ps progs programID priority bottom mem crit).os_processes
        = runningCount ps) := by
  refine ⟨?_, ?_, ?_⟩
  · intro ps hlen hzero
    have hnotrun : ¬ ((ps.getD 0 default).state
        = ProcessState.OS_PS_RUNNING) := by
      intro hr
      have hcp : List.countP
          (fun p => decide (p.state = ProcessState.OS_PS_RUNNING)) ps = 0 :=
        hzero
      exact (List.countP_eq_zero.mp hcp _ (getD_mem ps 0 default hlen))
        (decide_eq_true hr)
    refine ⟨?_, ?_, rfl⟩
    · show runningCount (setProcState ps 0 ProcessState.OS_PS_RUNNING) = 1
      have H := runningCount_setProcState ps 0 ProcessState.OS_PS_RUNNING hlen
      rw [if_neg hnotrun, if_pos rfl] at H
      omega
    · show ((setProcState ps 0 ProcessState.OS_PS_RUNNING).getD 0
        default).state = ProcessState.OS_PS_RUNNING
      exact getD_setProcState_self ps 0 ProcessState.OS_PS_RUNNING hlen
  · intro selE selR selRR selIA selRTC BOTTOM s hcur hrun huniq hnextlt
    have hcur0 : s.currentProc
        < (setProcSP s.os_processes s.currentProc s.SP).length := by
      simpa [setProcSP] using hcur
    have hl1 : (setProcState (setProcSP s.os_processes s.currentProc s.SP)
        s.currentProc ProcessState.OS_PS_READY).length
        = s.os_processes.length := by
      simp [setProcState, setProcSP]
    have hnextlen : strategyDispatch selE selR selRR selIA selRTC
        s.currentSchedulingStrategy
        (setProcState (setProcSP s.os_processes s.currentProc s.SP)
          s.currentProc ProcessState.OS_PS_READY) s.currentProc
        < (setProcState (setProcSP s.os_processes s.currentProc s.SP)
          s.currentProc ProcessState.OS_PS_READY).length := by
      rw [hl1]
      exact hnextlt
    have h0run : ((setProcSP s.os_processes s.currentProc s.SP).getD
        s.currentProc default).state = ProcessState.OS_PS_RUNNING := by
      rw [getD_setProcSP_self_state s.os_processes s.currentProc s.SP hcur]
      exact hrun
    have h0count : runningCount
        (setProcSP s.os_processes s.currentProc s.SP) = 1 := by
      rw [runningCount_setProcSP s.os_processes s.currentProc s.SP hcur]
      exact huniq
    have h1count : runningCount
        (setProcState (setProcSP s.os_processes s.currentProc s.SP)
          s.currentProc ProcessState.OS_PS_READY) = 0 := by
      have H := runningCount_setProcState
        (setProcSP s.os_processes s.currentProc s.SP) s.currentProc
        ProcessState.OS_PS_READY hcur0
      rw [if_pos h0run, if_neg (by decide :
        ¬ (ProcessState.OS_PS_READY = ProcessState.OS_PS_RUNNING))] at H
      omega
    have hnotrun1 : ¬ (((setProcState
        (setProcSP s.os_processes s.currentProc s.SP) s.currentProc
        ProcessState.OS_PS_READY).getD
        (strategyDispatch selE selR selRR selIA selRTC
          s.currentSchedulingStrategy
          (setProcState (setProcSP s.os_processes s.currentProc s.SP)
            s.currentProc ProcessState.OS_PS_READY) s.currentProc)
        default).state = ProcessState.OS_PS_RUNNING) := by
      intro hr
      have hcp : List.countP
          (fun p => decide (p.state = ProcessState.OS_PS_RUNNING))
          (setProcState (setProcSP s.os_processes s.currentProc s.SP)
            s.currentProc ProcessState.OS_PS_READY) = 0 := h1count
      exact (List.countP_eq_zero.mp hcp _ (getD_mem _ _ default hnextlen))
        (decide_eq_true hr)
    constructor
    · show runningCount (setProcState
        (setProcState (setProcSP s.os_processes s.currentProc s.SP)
          s.currentProc ProcessState.OS_PS_READY)
        (strategyDispatch selE selR selRR selIA selRTC
          s.currentSchedulingStrategy
          (setProcState (setProcSP s.os_processes s.currentProc s.SP)
            s.currentProc ProcessState.OS_PS_READY) s.currentProc)
        ProcessState.OS_PS_RUNNING) = 1
      have H := runningCount_setProcState
        (setProcState (setProcSP s.os_processes s.currentProc s.SP)
          s.currentProc ProcessState.OS_PS_READY)
        (strategyDispatch selE selR selRR selIA selRTC
          s.currentSchedulingStrategy
          (setProcState (setProcSP s.os_processes s.currentProc s.SP)
            s.currentProc ProcessState.OS_PS_READY) s.currentProc)
        ProcessState.OS_PS_RUNNING hnextlen
      rw [if_neg hnotrun1, if_pos rfl] at H
      omega
    · show ((setProcState
        (setProcState (setProcSP s.os_processes s.currentProc s.SP)
          s.currentProc ProcessState.OS_PS_READY)
        (strategyDispatch selE selR selRR selIA selRTC
          s.currentSchedulingStrategy
          (setProcState (setProcSP s.os_processes s.currentProc s.SP)
            s.currentProc ProcessState.OS_PS_READY) s.currentProc)
        ProcessState.OS_PS_RUNNING).getD
        (strategyDispatch selE selR selRR selIA selRTC
          s.currentSchedulingStrategy
          (setProcState (setProcSP s.os_processes s.currentProc s.SP)
            s.currentProc ProcessState.OS_PS_READY) s.currentProc)
        default).state = ProcessState.OS_PS_RUNNING
      exact getD_setProcState_self _ _ ProcessState.OS_PS_RUNNING hnextlen
  · intro ps progs programID priority bottom mem crit
    exact os_exec_runningCount ps progs programID priority bottom mem crit

/-- Witness for C8: all three legs instantiated on concrete one-process
tables. -/
theorem C8_unique_running_invariant_witness :
    (runningCount (os_startScheduler
        [Process.mk ProcessState.OS_PS_READY 0 0 0]).os_processes = 1 ∧
      ((os_startScheduler
        [Process.mk ProcessState.OS_PS_READY 0 0 0]).os_processes.getD 0
        default).state = ProcessState.OS_PS_RUNNING ∧
      (os_startScheduler
        [Process.mk ProcessState.OS_PS_READY 0 0 0]).currentProc = 0) ∧
    (runningCount (ISR_TIMER2_COMPA (fun _ _ => 0) (fun _ _ => 0)
        (fun _ _ => 0) (fun _ _ => 0) (fun _ _ => 0) 999
        ⟨[Process.mk ProcessState.OS_PS_RUNNING 0 0 0], 0,
          SchedulingStrategy.OS_SS_EVEN, 5⟩).1.os_processes = 1) ∧
    (runningCount (os_exec [Process.mk ProcessState.OS_PS_UNUSED 0 0 0]
        [some 3] 0 5 (fun _ => 100) (fun _ => 0)
        ⟨0, 0, 0, 0⟩).os_processes
      = runningCount [Process.mk ProcessState.OS_PS_UNUSED 0 0 0]) := by
  have h := C8_unique_running_invariant
  exact ⟨h.1 [Process.mk ProcessState.OS_PS_READY 0 0 0] (by decide)
      (by decide),
    (h.2.1 (fun _ _ => 0) (fun _ _ => 0) (fun _ _ => 0) (fun _ _ => 0)
      (fun _ _ => 0) 999
      ⟨[Process.mk ProcessState.OS_PS_RUNNING 0 0 0], 0,
        SchedulingStrategy.OS_SS_EVEN, 5⟩ (by decide) (by decide)
      (by decide) (by decide)).1,
    h.2.2 [Process.mk ProcessState.OS_PS_UNUSED 0 0 0] [some 3] 0 5
      (fun _ => 100) (fun _ => 0) ⟨0, 0, 0, 0⟩⟩

end SPOS
